import Mathlib

/-!
Verification of the token-lifecycle logic of `src/services/auth.py`
(class `Auth`): issuance of access / refresh / email-verification JWTs,
and the three validation paths `get_email_form_refresh_token`,
`get_current_user` and `get_email_from_token`.

Modelling choices:
* Python claim dictionaries are association lists `List (String × ClaimValue)`
  with first-occurrence lookup; `dict.update` replaces in place or appends.
* A claim value is a string, a timestamp (seconds, as `jwt.encode` converts
  `datetime` values to integer timestamps), or Python `None`.
* `jose.jwt.encode(claims, key, algorithm)` is modelled as the record of its
  arguments; `jose.jwt.decode(token, key, algorithms)` succeeds iff the key
  matches, the algorithm is allowed, and the registered `exp` claim (when
  present, as a timestamp) has not passed — python-jose treats a token as
  expired exactly when `exp < now`.  The tokens this service issues carry
  only `sub` / `iat` / `exp` / `scope` claims.
* `datetime.utcnow()` is an explicit `now : Int` parameter (seconds).
* A call can end in three ways: a returned value, a raised
  `fastapi.HTTPException` (status / detail / headers), or an uncaught
  `KeyError` from a missing dictionary key — `except JWTError` does not
  catch `KeyError`, so `payload[...]` on a missing key escapes the handler.
* The database lookup `get_user_by_email(email, db)` is an explicit function
  parameter `find : ClaimValue → Option User`.
* Dictionary aliasing (for the `data.copy()` frame property) is modelled
  separately with an explicit heap of dictionaries, below.
-/

namespace AuthPy

/-- A value stored in a claims dictionary: a string, a timestamp
(integer seconds), or Python `None`. -/
inductive ClaimValue where
  | str : String → ClaimValue
  | time : Int → ClaimValue
  | null : ClaimValue
deriving DecidableEq, Repr

/-- A Python claims dictionary: association list, first occurrence wins. -/
abbrev Claims := List (String × ClaimValue)

/-- Dictionary lookup `d[k]` (as an `Option`; a `none` here is the
`KeyError` case at call sites). -/
def lookupClaim : Claims → String → Option ClaimValue
  | [], _ => Option.none
  | (k', v) :: rest, k => if k' = k then some v else lookupClaim rest k

/-- `d[k] = v`: replace the first binding of `k`, or append a new one. -/
def setKey : Claims → String → ClaimValue → Claims
  | [], k, v => [(k, v)]
  | (k', v') :: rest, k, v =>
    if k' = k then (k, v) :: rest else (k', v') :: setKey rest k v

/-- `d.update(upd)`: set every key of `upd` in `d`, in order. -/
def dictUpdate (d upd : Claims) : Claims :=
  upd.foldl (fun acc kv => setKey acc kv.1 kv.2) d

/-- `Auth.SECRET_KEY` (hard-coded in the source). -/
def SECRET_KEY : String :=
  "e26cd3c889b41f4ffc33b2306ae18a87eba234f283ffa7095ee18e8d9c6ed2f6"

/-- `Auth.ALGORITHM`. -/
def ALGORITHM : String := "HS256"

/-- `jose.jwt.encode(claims, key, algorithm=alg)`: the signed token, kept
abstract as the data that determines it. -/
structure SignedToken where
  claims : Claims
  key : String
  alg : String
deriving DecidableEq, Repr

def jwtEncode (claims : Claims) (key : String) (alg : String) : SignedToken :=
  ⟨claims, key, alg⟩

/-- The `exp` check of `jose.jwt.decode`: absent is fine; a timestamp is
fine iff it has not passed (python-jose raises iff `exp < now`); any other
value kind fails validation. -/
def expOk (c : Claims) (now : Int) : Bool :=
  match lookupClaim c "exp" with
  | Option.none => true
  | some (.time t) => decide (now ≤ t)
  | some _ => false

/-- `jose.jwt.decode(token, key, algorithms=algs)` at clock `now`:
`some` claims on success, `none` for any `JWTError` (bad signature,
disallowed algorithm, expired or malformed `exp`). -/
def jwtDecode (tok : SignedToken) (key : String) (algs : List String)
    (now : Int) : Option Claims :=
  if tok.key = key ∧ tok.alg ∈ algs ∧ expOk tok.claims now then
    some tok.claims
  else
    Option.none

/-- `Auth.create_access_token(data, expires_delta)` at clock `now`.
`if expires_delta:` is Python truthiness: `None` **and `0`** both fall
back to the 15-minute default. -/
def create_access_token (data : Claims) (expires_delta : Option Int)
    (now : Int) : SignedToken :=
  let expire : Int :=
    match expires_delta with
    | some d => if d ≠ 0 then now + d else now + 15 * 60
    | Option.none => now + 15 * 60
  let to_encode :=
    dictUpdate data
      [("iat", .time now), ("exp", .time expire),
       ("scope", .str "access_token")]
  jwtEncode to_encode SECRET_KEY ALGORITHM

/-- `Auth.create_refresh_token(data, expires_delta)` at clock `now`
(7-day default, same truthiness on `expires_delta`). -/
def create_refresh_token (data : Claims) (expires_delta : Option Int)
    (now : Int) : SignedToken :=
  let expire : Int :=
    match expires_delta with
    | some d => if d ≠ 0 then now + d else now + 7 * 24 * 60 * 60
    | Option.none => now + 7 * 24 * 60 * 60
  let to_encode :=
    dictUpdate data
      [("iat", .time now), ("exp", .time expire),
       ("scope", .str "refresh_token")]
  jwtEncode to_encode SECRET_KEY ALGORITHM

/-- `Auth.create_email_token(data)` at clock `now`: 7 days, **no**
`scope` entry is added. -/
def create_email_token (data : Claims) (now : Int) : SignedToken :=
  let expire : Int := now + 7 * 24 * 60 * 60
  let to_encode := dictUpdate data [("iat", .time now), ("exp", .time expire)]
  jwtEncode to_encode SECRET_KEY ALGORITHM

/-- A raised `fastapi.HTTPException`. -/
structure HTTPError where
  status : Nat
  detail : String
  headers : List (String × String)
deriving DecidableEq, Repr

/-- How a call ends: a return value, a raised `HTTPException`, or an
uncaught `KeyError` on the named dictionary key. -/
inductive Outcome (α : Type) where
  | ok : α → Outcome α
  | httpError : HTTPError → Outcome α
  | keyError : String → Outcome α
deriving DecidableEq, Repr

/-- A row of the user store, as returned by `get_user_by_email`. -/
structure User where
  email : ClaimValue
deriving DecidableEq, Repr

/-- The `credentials_exception` built in `get_current_user`. -/
def credentials_exception : HTTPError :=
  { status := 401
    detail := "Could not validate credentials"
    headers := [("WWW-Authenticate", "Bearer")] }

/-- `Auth.get_email_form_refresh_token(refresh_token)` at clock `now`.
The `HTTPException` raised for a wrong scope is inside the `try` block but
is not a `JWTError`, so it propagates; subscripting `payload` on a missing
`scope` / `sub` key is an uncaught `KeyError`. -/
def get_email_form_refresh_token (refresh_token : SignedToken)
    (now : Int) : Outcome ClaimValue :=
  match jwtDecode refresh_token SECRET_KEY [ALGORITHM] now with
  | Option.none =>
    .httpError { status := 401, detail := "Could not validate credentials",
                 headers := [] }
  | some payload =>
    match lookupClaim payload "scope" with
    | Option.none => .keyError "scope"
    | some s =>
      if s = .str "refresh_token" then
        match lookupClaim payload "sub" with
        | Option.none => .keyError "sub"
        | some email => .ok email
      else
        .httpError { status := 401, detail := "Invalid scope for token",
                     headers := [] }

/-- `Auth.get_current_user(token, db)` at clock `now`, with the
`get_user_by_email` collaborator passed as `find`.  Every rejection inside
the function raises the single `credentials_exception`; only a missing
`scope` / `sub` key escapes as a `KeyError`. -/
def get_current_user (token : SignedToken) (find : ClaimValue → Option User)
    (now : Int) : Outcome User :=
  match jwtDecode token SECRET_KEY [ALGORITHM] now with
  | Option.none => .httpError credentials_exception
  | some payload =>
    match lookupClaim payload "scope" with
    | Option.none => .keyError "scope"
    | some s =>
      if s = .str "access_token" then
        match lookupClaim payload "sub" with
        | Option.none => .keyError "sub"
        | some email =>
          if email = .null then .httpError credentials_exception
          else
            match find email with
            | Option.none => .httpError credentials_exception
            | some u => .ok u
      else
        .httpError credentials_exception

/-- `Auth.get_email_from_token(token)` at clock `now`: decode failure is a
**422**, not a 401, and no scope check is performed. -/
def get_email_from_token (token : SignedToken) (now : Int) :
    Outcome ClaimValue :=
  match jwtDecode token SECRET_KEY [ALGORITHM] now with
  | Option.none =>
    .httpError { status := 422, detail := "Invalid token for email verification",
                 headers := [] }
  | some payload =>
    match lookupClaim payload "sub" with
    | Option.none => .keyError "sub"
    | some email => .ok email

/-! ### Heap model of dictionary aliasing

For the frame property (`data.copy()` protects the caller dictionary) the
issuers are re-modelled over an explicit heap of dictionaries: a reference
is an index, `copy` allocates a fresh cell, `update` mutates one cell. -/

/-- A heap of Python dictionaries; a reference is an index into the list. -/
abbrev DictHeap := List Claims

/-- Dereference: the dictionary stored at `r`. -/
def heapGet (h : DictHeap) (r : Nat) : Claims := h.getD r []

/-- `d.copy()`: allocate a fresh cell holding the same contents, returning
the new reference. -/
def dictCopyAlloc (h : DictHeap) (r : Nat) : Nat × DictHeap :=
  (h.length, h ++ [heapGet h r])

/-- `d.update(upd)` as mutation of the cell at `r`. -/
def heapUpdateAt (h : DictHeap) (r : Nat) (upd : Claims) : DictHeap :=
  h.set r (dictUpdate (heapGet h r) upd)

/-- `create_access_token` over the heap: `to_encode = data.copy()`, then
an update of `to_encode`; the caller reference `data` is never written. -/
def create_access_token_heap (h : DictHeap) (data : Nat)
    (expires_delta : Option Int) (now : Int) : SignedToken × DictHeap :=
  let p := dictCopyAlloc h data
  let expire : Int :=
    match expires_delta with
    | some d => if d ≠ 0 then now + d else now + 15 * 60
    | Option.none => now + 15 * 60
  let h2 := heapUpdateAt p.2 p.1
    [("iat", .time now), ("exp", .time expire), ("scope", .str "access_token")]
  (jwtEncode (heapGet h2 p.1) SECRET_KEY ALGORITHM, h2)

/-- `create_refresh_token` over the heap. -/
def create_refresh_token_heap (h : DictHeap) (data : Nat)
    (expires_delta : Option Int) (now : Int) : SignedToken × DictHeap :=
  let p := dictCopyAlloc h data
  let expire : Int :=
    match expires_delta with
    | some d => if d ≠ 0 then now + d else now + 7 * 24 * 60 * 60
    | Option.none => now + 7 * 24 * 60 * 60
  let h2 := heapUpdateAt p.2 p.1
    [("iat", .time now), ("exp", .time expire), ("scope", .str "refresh_token")]
  (jwtEncode (heapGet h2 p.1) SECRET_KEY ALGORITHM, h2)

/-- `create_email_token` over the heap. -/
def create_email_token_heap (h : DictHeap) (data : Nat) (now : Int) :
    SignedToken × DictHeap :=
  let p := dictCopyAlloc h data
  let expire : Int := now + 7 * 24 * 60 * 60
  let h2 := heapUpdateAt p.2 p.1 [("iat", .time now), ("exp", .time expire)]
  (jwtEncode (heapGet h2 p.1) SECRET_KEY ALGORITHM, h2)

/-! ### Dictionary lemmas -/

theorem lookup_setKey_self (d : Claims) (k : String) (v : ClaimValue) :
    lookupClaim (setKey d k v) k = some v := by
  induction d with
  | nil => simp [setKey, lookupClaim]
  | cons kv rest ih =>
    obtain ⟨k', v'⟩ := kv
    by_cases h : k' = k
    · simp [setKey, h, lookupClaim]
    · simp [setKey, h, lookupClaim, ih]

theorem lookup_setKey_ne (d : Claims) (k' k : String) (v : ClaimValue)
    (h : k' ≠ k) :
    lookupClaim (setKey d k' v) k = lookupClaim d k := by
  induction d with
  | nil => simp [setKey, lookupClaim, h]
  | cons kv rest ih =>
    obtain ⟨k₀, v₀⟩ := kv
    by_cases h0 : k₀ = k'
    · subst h0
      simp [setKey, lookupClaim, h]
    · simp [setKey, h0, lookupClaim, ih]

/-- Effective lifetime of an access token (`if expires_delta:` truthiness). -/
def accessExpire (expires_delta : Option Int) (now : Int) : Int :=
  match expires_delta with
  | some d => if d ≠ 0 then now + d else now + 15 * 60
  | Option.none => now + 15 * 60

/-- Effective lifetime of a refresh token. -/
def refreshExpire (expires_delta : Option Int) (now : Int) : Int :=
  match expires_delta with
  | some d => if d ≠ 0 then now + d else now + 7 * 24 * 60 * 60
  | Option.none => now + 7 * 24 * 60 * 60

theorem access_claims (data : Claims) (δ : Option Int) (now : Int) :
    (create_access_token data δ now).claims =
      setKey (setKey (setKey data "iat" (.time now))
        "exp" (.time (accessExpire δ now))) "scope" (.str "access_token") := rfl

theorem refresh_claims (data : Claims) (δ : Option Int) (now : Int) :
    (create_refresh_token data δ now).claims =
      setKey (setKey (setKey data "iat" (.time now))
        "exp" (.time (refreshExpire δ now))) "scope" (.str "refresh_token") := rfl

theorem email_claims (data : Claims) (now : Int) :
    (create_email_token data now).claims =
      setKey (setKey data "iat" (.time now))
        "exp" (.time (now + 7 * 24 * 60 * 60)) := rfl

theorem access_lookup_iat (data : Claims) (δ : Option Int) (now : Int) :
    lookupClaim (create_access_token data δ now).claims "iat" =
      some (.time now) := by
  rw [access_claims, lookup_setKey_ne _ _ _ _ (by decide),
    lookup_setKey_ne _ _ _ _ (by decide), lookup_setKey_self]

theorem access_lookup_exp (data : Claims) (δ : Option Int) (now : Int) :
    lookupClaim (create_access_token data δ now).claims "exp" =
      some (.time (accessExpire δ now)) := by
  rw [access_claims, lookup_setKey_ne _ _ _ _ (by decide), lookup_setKey_self]

theorem access_lookup_scope (data : Claims) (δ : Option Int) (now : Int) :
    lookupClaim (create_access_token data δ now).claims "scope" =
      some (.str "access_token") := by
  rw [access_claims, lookup_setKey_self]

theorem access_lookup_sub (data : Claims) (δ : Option Int) (now : Int) :
    lookupClaim (create_access_token data δ now).claims "sub" =
      lookupClaim data "sub" := by
  rw [access_claims, lookup_setKey_ne _ _ _ _ (by decide),
    lookup_setKey_ne _ _ _ _ (by decide), lookup_setKey_ne _ _ _ _ (by decide)]

theorem refresh_lookup_iat (data : Claims) (δ : Option Int) (now : Int) :
    lookupClaim (create_refresh_token data δ now).claims "iat" =
      some (.time now) := by
  rw [refresh_claims, lookup_setKey_ne _ _ _ _ (by decide),
    lookup_setKey_ne _ _ _ _ (by decide), lookup_setKey_self]

theorem refresh_lookup_exp (data : Claims) (δ : Option Int) (now : Int) :
    lookupClaim (create_refresh_token data δ now).claims "exp" =
      some (.time (refreshExpire δ now)) := by
  rw [refresh_claims, lookup_setKey_ne _ _ _ _ (by decide), lookup_setKey_self]

theorem refresh_lookup_scope (data : Claims) (δ : Option Int) (now : Int) :
    lookupClaim (create_refresh_token data δ now).claims "scope" =
      some (.str "refresh_token") := by
  rw [refresh_claims, lookup_setKey_self]

theorem refresh_lookup_sub (data : Claims) (δ : Option Int) (now : Int) :
    lookupClaim (create_refresh_token data δ now).claims "sub" =
      lookupClaim data "sub" := by
  rw [refresh_claims, lookup_setKey_ne _ _ _ _ (by decide),
    lookup_setKey_ne _ _ _ _ (by decide), lookup_setKey_ne _ _ _ _ (by decide)]

theorem email_lookup_iat (data : Claims) (now : Int) :
    lookupClaim (create_email_token data now).claims "iat" =
      some (.time now) := by
  rw [email_claims, lookup_setKey_ne _ _ _ _ (by decide), lookup_setKey_self]

theorem email_lookup_exp (data : Claims) (now : Int) :
    lookupClaim (create_email_token data now).claims "exp" =
      some (.time (now + 7 * 24 * 60 * 60)) := by
  rw [email_claims, lookup_setKey_self]

theorem email_lookup_scope (data : Claims) (now : Int) :
    lookupClaim (create_email_token data now).claims "scope" =
      lookupClaim data "scope" := by
  rw [email_claims, lookup_setKey_ne _ _ _ _ (by decide),
    lookup_setKey_ne _ _ _ _ (by decide)]

theorem email_lookup_sub (data : Claims) (now : Int) :
    lookupClaim (create_email_token data now).claims "sub" =
      lookupClaim data "sub" := by
  rw [email_claims, lookup_setKey_ne _ _ _ _ (by decide),
    lookup_setKey_ne _ _ _ _ (by decide)]

/-! ### Decode lemmas -/

theorem jwtDecode_encode_ok (c : Claims) (now : Int) (h : expOk c now = true) :
    jwtDecode (jwtEncode c SECRET_KEY ALGORITHM) SECRET_KEY [ALGORITHM] now =
      some c := by
  simp [jwtDecode, jwtEncode, h]

theorem access_expOk (data : Claims) (δ : Option Int) (now : Int)
    (hδ : ∀ d, δ = some d → 0 ≤ d) :
    expOk (create_access_token data δ now).claims now = true := by
  unfold expOk
  rw [access_lookup_exp]
  show decide (now ≤ accessExpire δ now) = true
  rw [decide_eq_true_eq]
  unfold accessExpire
  cases δ with
  | none => dsimp only; omega
  | some d =>
    have hd : 0 ≤ d := hδ d rfl
    dsimp only
    split <;> omega

theorem refresh_expOk (data : Claims) (δ : Option Int) (now : Int)
    (hδ : ∀ d, δ = some d → 0 ≤ d) :
    expOk (create_refresh_token data δ now).claims now = true := by
  unfold expOk
  rw [refresh_lookup_exp]
  show decide (now ≤ refreshExpire δ now) = true
  rw [decide_eq_true_eq]
  unfold refreshExpire
  cases δ with
  | none => dsimp only; omega
  | some d =>
    have hd : 0 ≤ d := hδ d rfl
    dsimp only
    split <;> omega

theorem email_expOk (data : Claims) (now : Int) :
    expOk (create_email_token data now).claims now = true := by
  unfold expOk
  rw [email_lookup_exp]
  show decide (now ≤ now + 7 * 24 * 60 * 60) = true
  rw [decide_eq_true_eq]
  omega

/-! ### Heap lemmas -/

theorem heapGet_append_lt (h : DictHeap) (r : Nat) (hr : r < h.length)
    (x : Claims) : heapGet (h ++ [x]) r = heapGet h r := by
  induction h generalizing r with
  | nil => exact absurd hr (by simp)
  | cons c t ih =>
    cases r with
    | zero => rfl
    | succ r => exact ih r (by simpa using hr)

theorem heapGet_set_ne (h : DictHeap) (i r : Nat) (x : Claims)
    (hne : r ≠ i) : heapGet (h.set i x) r = heapGet h r := by
  induction h generalizing i r with
  | nil => rfl
  | cons c t ih =>
    cases i with
    | zero =>
      cases r with
      | zero => exact absurd rfl hne
      | succ r => rfl
    | succ i =>
      cases r with
      | zero => rfl
      | succ r => exact ih i r (fun he => hne (by rw [he]))

theorem heapGet_append_length (h : DictHeap) (x : Claims) :
    heapGet (h ++ [x]) h.length = x := by
  induction h with
  | nil => rfl
  | cons c t ih => exact ih

theorem heapGet_set_self (h : DictHeap) (i : Nat) (x : Claims)
    (hi : i < h.length) : heapGet (h.set i x) i = x := by
  induction h generalizing i with
  | nil => exact absurd hi (by simp)
  | cons c t ih =>
    cases i with
    | zero => rfl
    | succ i => exact ih i (by simpa using hi)

/-- The heap-level issuer signs exactly the token the functional issuer
builds from the dereferenced dictionary. -/
theorem access_heap_token (h : DictHeap) (r : Nat) (δ : Option Int)
    (now : Int) :
    (create_access_token_heap h r δ now).1 =
      create_access_token (heapGet h r) δ now := by
  simp only [create_access_token_heap, dictCopyAlloc, heapUpdateAt,
    create_access_token]
  rw [heapGet_set_self _ _ _ (by simp), heapGet_append_length]

theorem refresh_heap_token (h : DictHeap) (r : Nat) (δ : Option Int)
    (now : Int) :
    (create_refresh_token_heap h r δ now).1 =
      create_refresh_token (heapGet h r) δ now := by
  simp only [create_refresh_token_heap, dictCopyAlloc, heapUpdateAt,
    create_refresh_token]
  rw [heapGet_set_self _ _ _ (by simp), heapGet_append_length]

theorem email_heap_token (h : DictHeap) (r : Nat) (now : Int) :
    (create_email_token_heap h r now).1 =
      create_email_token (heapGet h r) now := by
  simp only [create_email_token_heap, dictCopyAlloc, heapUpdateAt,
    create_email_token]
  rw [heapGet_set_self _ _ _ (by simp), heapGet_append_length]

/-! ### Decoding freshly issued tokens -/

theorem access_decode (data : Claims) (δ : Option Int) (now : Int)
    (hδ : ∀ d, δ = some d → 0 ≤ d) :
    jwtDecode (create_access_token data δ now) SECRET_KEY [ALGORITHM] now =
      some (create_access_token data δ now).claims :=
  jwtDecode_encode_ok _ now (access_expOk data δ now hδ)

theorem refresh_decode (data : Claims) (δ : Option Int) (now : Int)
    (hδ : ∀ d, δ = some d → 0 ≤ d) :
    jwtDecode (create_refresh_token data δ now) SECRET_KEY [ALGORITHM] now =
      some (create_refresh_token data δ now).claims :=
  jwtDecode_encode_ok _ now (refresh_expOk data δ now hδ)

theorem email_decode (data : Claims) (now : Int) :
    jwtDecode (create_email_token data now) SECRET_KEY [ALGORITHM] now =
      some (create_email_token data now).claims :=
  jwtDecode_encode_ok _ now (email_expOk data now)

/-! ### Claims -/

/-- C1: for every claims dictionary whose `sub` entry is an email string,
issuing an access token with `create_access_token` (default or nonnegative
`expires_delta`) and immediately validating it on the access path with the
same secret and unchanged clock succeeds: `get_current_user` passes exactly
that `sub` value to the user lookup and returns the user found for it. -/
theorem c1_access_roundtrip (data : Claims) (email : String)
    (δ : Option Int) (now : Int) (find : ClaimValue → Option User) (u : User)
    (hsub : lookupClaim data "sub" = some (.str email))
    (hδ : ∀ d, δ = some d → 0 ≤ d)
    (hfind : find (.str email) = some u) :
    get_current_user (create_access_token data δ now) find now = .ok u := by
  simp only [get_current_user, access_decode data δ now hδ,
    access_lookup_scope, access_lookup_sub, hsub, hfind]
  simp

theorem c1_witness :
    get_current_user
      (create_access_token [("sub", .str "a@example.com")] Option.none 0)
      (fun v => if v = .str "a@example.com"
        then some ⟨.str "a@example.com"⟩ else Option.none) 0 =
    .ok ⟨.str "a@example.com"⟩ :=
  c1_access_roundtrip [("sub", .str "a@example.com")] "a@example.com"
    Option.none 0 _ ⟨.str "a@example.com"⟩ rfl
    (fun _ h => nomatch h) rfl

/-- C4 counterexample: a negative caller-supplied `expires_delta` makes
`exp` fall strictly before `iat` (access token, delta `-1`, clock `0`:
`exp = -1`, `iat = 0`). -/
theorem c4_counterexample :
    lookupClaim (create_access_token [("sub", .str "a@example.com")]
      (some (-1)) 0).claims "iat" = some (.time 0) ∧
    lookupClaim (create_access_token [("sub", .str "a@example.com")]
      (some (-1)) 0).claims "exp" = some (.time (-1)) ∧
    ¬((0 : Int) < -1) := by decide

/-- C4 (amended): for the three issuers, whenever the caller-supplied
`expires_delta` is absent or nonnegative, the issued claims satisfy
`exp > iat` (a negative override violates the invariant). -/
theorem c4_exp_gt_iat (data : Claims) (δ : Option Int) (now : Int)
    (hδ : ∀ d, δ = some d → 0 ≤ d) :
    (∃ e i, lookupClaim (create_access_token data δ now).claims "exp" =
        some (.time e) ∧
      lookupClaim (create_access_token data δ now).claims "iat" =
        some (.time i) ∧ i < e) ∧
    (∃ e i, lookupClaim (create_refresh_token data δ now).claims "exp" =
        some (.time e) ∧
      lookupClaim (create_refresh_token data δ now).claims "iat" =
        some (.time i) ∧ i < e) ∧
    (∃ e i, lookupClaim (create_email_token data now).claims "exp" =
        some (.time e) ∧
      lookupClaim (create_email_token data now).claims "iat" =
        some (.time i) ∧ i < e) := by
  refine ⟨⟨accessExpire δ now, now,
      access_lookup_exp data δ now, access_lookup_iat data δ now, ?_⟩,
    ⟨refreshExpire δ now, now,
      refresh_lookup_exp data δ now, refresh_lookup_iat data δ now, ?_⟩,
    ⟨now + 7 * 24 * 60 * 60, now,
      email_lookup_exp data now, email_lookup_iat data now, by omega⟩⟩
  · unfold accessExpire
    cases δ with
    | none => dsimp only; omega
    | some d =>
      have hd : 0 ≤ d := hδ d rfl
      dsimp only
      split <;> omega
  · unfold refreshExpire
    cases δ with
    | none => dsimp only; omega
    | some d =>
      have hd : 0 ≤ d := hδ d rfl
      dsimp only
      split <;> omega

theorem c4_witness :
    (∃ e i, lookupClaim (create_access_token [("sub", .str "a@example.com")]
        (some 30) 7).claims "exp" = some (.time e) ∧
      lookupClaim (create_access_token [("sub", .str "a@example.com")]
        (some 30) 7).claims "iat" = some (.time i) ∧ i < e) ∧
    (∃ e i, lookupClaim (create_refresh_token [("sub", .str "a@example.com")]
        (some 30) 7).claims "exp" = some (.time e) ∧
      lookupClaim (create_refresh_token [("sub", .str "a@example.com")]
        (some 30) 7).claims "iat" = some (.time i) ∧ i < e) ∧
    (∃ e i, lookupClaim (create_email_token [("sub", .str "a@example.com")]
        7).claims "exp" = some (.time e) ∧
      lookupClaim (create_email_token [("sub", .str "a@example.com")]
        7).claims "iat" = some (.time i) ∧ i < e) :=
  c4_exp_gt_iat [("sub", .str "a@example.com")] (some 30) 7
    (fun d h => by cases h; decide)

/-- C5 counterexample: a caller-supplied lifetime of `0` seconds is falsy
in Python, so the access token falls back to the 15-minute default:
`exp - iat = 900`, not the supplied `0`. -/
theorem c5_counterexample :
    lookupClaim (create_access_token [("sub", .str "u@x.com")]
      (some 0) 0).claims "exp" = some (.time 900) ∧
    lookupClaim (create_access_token [("sub", .str "u@x.com")]
      (some 0) 0).claims "iat" = some (.time 0) ∧
    (900 : Int) - 0 ≠ 0 := by decide

theorem accessExpire_eq (δ : Option Int) (now : Int) :
    accessExpire δ now = now + (match δ with
      | some d => if d ≠ 0 then d else 900
      | Option.none => 900) := by
  unfold accessExpire
  cases δ with
  | none => norm_num
  | some d =>
    dsimp only
    by_cases h0 : d = 0
    · subst h0; norm_num
    · rw [if_pos h0, if_pos h0]

theorem refreshExpire_eq (δ : Option Int) (now : Int) :
    refreshExpire δ now = now + (match δ with
      | some d => if d ≠ 0 then d else 604800
      | Option.none => 604800) := by
  unfold refreshExpire
  cases δ with
  | none => norm_num
  | some d =>
    dsimp only
    by_cases h0 : d = 0
    · subst h0; norm_num
    · rw [if_pos h0, if_pos h0]

/-- C5 (amended): `exp = iat + lifetime`, where the lifetime is the
caller-supplied override when provided **and nonzero** (a zero override is
falsy and falls back to the default), and otherwise the kind default:
900 s for access, 604800 s for refresh and for email verification; the
access and refresh tokens also carry their scope marker.  In particular an
access token issued with override 900 has `exp - iat = 900`. -/
theorem c5_exp_iat_lifetime (data : Claims) (δ : Option Int) (now : Int) :
    (lookupClaim (create_access_token data δ now).claims "iat" =
        some (.time now) ∧
      lookupClaim (create_access_token data δ now).claims "exp" =
        some (.time (now + (match δ with
          | some d => if d ≠ 0 then d else 900
          | Option.none => 900))) ∧
      lookupClaim (create_access_token data δ now).claims "scope" =
        some (.str "access_token")) ∧
    (lookupClaim (create_refresh_token data δ now).claims "iat" =
        some (.time now) ∧
      lookupClaim (create_refresh_token data δ now).claims "exp" =
        some (.time (now + (match δ with
          | some d => if d ≠ 0 then d else 604800
          | Option.none => 604800))) ∧
      lookupClaim (create_refresh_token data δ now).claims "scope" =
        some (.str "refresh_token")) ∧
    (lookupClaim (create_email_token data now).claims "iat" =
        some (.time now) ∧
      lookupClaim (create_email_token data now).claims "exp" =
        some (.time (now + 604800))) := by
  refine ⟨⟨access_lookup_iat data δ now, ?_, access_lookup_scope data δ now⟩,
    ⟨refresh_lookup_iat data δ now, ?_, refresh_lookup_scope data δ now⟩,
    email_lookup_iat data now, ?_⟩
  · rw [access_lookup_exp, accessExpire_eq]
  · rw [refresh_lookup_exp, refreshExpire_eq]
  · rw [email_lookup_exp]
    norm_num

/-- C2 counterexample: `get_current_user` rejects a validly signed,
unexpired refresh token with exactly the same `HTTPException` value
(status, detail and headers) that it uses for a token failing decode
(wrong signing key), so its invalid-scope rejection is **not** distinct
from its decode-failure rejection. -/
theorem c2_counterexample :
    get_current_user (create_refresh_token [("sub", .str "a@example.com")]
      Option.none 0) (fun _ => Option.none) 0 =
      .httpError credentials_exception ∧
    get_current_user (jwtEncode [("sub", .str "a@example.com")] "not-the-key"
      ALGORITHM) (fun _ => Option.none) 0 =
      .httpError credentials_exception := by
  constructor <;> rfl

/-- C2 (amended): on the refresh path
(`get_email_form_refresh_token`) a validly signed, unexpired token whose
scope is not `refresh_token` is rejected with 401 / Invalid scope for
token, which is distinct from the 401 / Could not validate credentials
used for decode failure; on the access path (`get_current_user`) a token
whose scope is not `access_token` is rejected with the very same
`credentials_exception` that decode failure produces, so no distinct
invalid-scope rejection exists there. -/
theorem c2_scope_mismatch (tok : SignedToken) (p : Claims) (s : ClaimValue)
    (now : Int) (find : ClaimValue → Option User)
    (hdec : jwtDecode tok SECRET_KEY [ALGORITHM] now = some p)
    (hscope : lookupClaim p "scope" = some s) :
    (s ≠ .str "refresh_token" →
      get_email_form_refresh_token tok now = .httpError
        { status := 401, detail := "Invalid scope for token",
          headers := [] } ∧
      ({ status := 401, detail := "Invalid scope for token",
         headers := [] } : HTTPError) ≠
        { status := 401, detail := "Could not validate credentials",
          headers := [] }) ∧
    (s ≠ .str "access_token" →
      get_current_user tok find now = .httpError credentials_exception) ∧
    (∀ bad, jwtDecode bad SECRET_KEY [ALGORITHM] now = Option.none →
      get_current_user bad find now = .httpError credentials_exception) := by
  refine ⟨fun hs => ⟨?_, by decide⟩, fun hs => ?_, fun bad hbad => ?_⟩
  · simp only [get_email_form_refresh_token, hdec, hscope, if_neg hs]
  · simp only [get_current_user, hdec, hscope, if_neg hs]
  · simp only [get_current_user, hbad]

theorem c2_witness :
    get_email_form_refresh_token (create_access_token
      [("sub", .str "a@example.com")] Option.none 0) 0 = .httpError
      { status := 401, detail := "Invalid scope for token",
        headers := [] } :=
  ((c2_scope_mismatch (create_access_token [("sub", .str "a@example.com")]
      Option.none 0)
    (create_access_token [("sub", .str "a@example.com")] Option.none 0).claims
    (.str "access_token") 0 (fun _ => Option.none) rfl rfl).1 (by decide)).1

/-- C3 counterexample: a validly signed, unexpired token with scope
`access_token` but **no** `sub` key makes `get_current_user` end in an
uncaught `KeyError`, not in the 401 credentials rejection used for decode
failures. -/
theorem c3_counterexample :
    get_current_user (jwtEncode [("scope", .str "access_token")] SECRET_KEY
      ALGORITHM) (fun _ => Option.none) 0 = .keyError "sub" ∧
    (Outcome.keyError "sub" : Outcome User) ≠
      .httpError credentials_exception := by
  constructor
  · rfl
  · decide

/-- C3 (amended): on the access path, a validly signed, unexpired
access-scope token whose `sub` is null is rejected with the same 401
credentials exception as decode failures, but when `sub` is **absent**
the lookup escapes as an uncaught `KeyError` instead. -/
theorem c3_sub_absent_or_null (tok : SignedToken) (p : Claims) (now : Int)
    (find : ClaimValue → Option User)
    (hdec : jwtDecode tok SECRET_KEY [ALGORITHM] now = some p)
    (hscope : lookupClaim p "scope" = some (.str "access_token")) :
    (lookupClaim p "sub" = some .null →
      get_current_user tok find now = .httpError credentials_exception) ∧
    (lookupClaim p "sub" = Option.none →
      get_current_user tok find now = .keyError "sub") := by
  constructor <;> intro hsub <;> simp [get_current_user, hdec, hscope, hsub]

theorem c3_witness :
    get_current_user (jwtEncode [("scope", .str "access_token"),
      ("sub", ClaimValue.null)] SECRET_KEY ALGORITHM)
      (fun _ => Option.none) 0 = .httpError credentials_exception :=
  (c3_sub_absent_or_null (jwtEncode [("scope", .str "access_token"),
      ("sub", ClaimValue.null)] SECRET_KEY ALGORITHM)
    [("scope", .str "access_token"), ("sub", ClaimValue.null)] 0
    (fun _ => Option.none) rfl rfl).1 rfl

/-- C6: `create_email_token` adds no `scope` entry (a data dictionary
without one yields a token without one), and `get_email_from_token`
performs no scope check: every token that decodes under the shared secret
at the validation clock and carries a `sub` entry yields exactly that
`sub`. -/
theorem c6_email_token_no_scope (data : Claims) (now : Int)
    (hns : lookupClaim data "scope" = Option.none)
    (tok : SignedToken) (p : Claims) (v : ClaimValue) (now2 : Int)
    (hdec : jwtDecode tok SECRET_KEY [ALGORITHM] now2 = some p)
    (hsub : lookupClaim p "sub" = some v) :
    lookupClaim (create_email_token data now).claims "scope" =
      Option.none ∧
    get_email_from_token tok now2 = .ok v := by
  constructor
  · rw [email_lookup_scope]
    exact hns
  · simp [get_email_from_token, hdec, hsub]

theorem c6_witness :
    lookupClaim (create_email_token [("sub", .str "a@example.com")] 0).claims
      "scope" = Option.none ∧
    get_email_from_token (create_email_token [("sub", .str "a@example.com")]
      0) 0 = .ok (.str "a@example.com") :=
  c6_email_token_no_scope [("sub", .str "a@example.com")] 0 rfl
    (create_email_token [("sub", .str "a@example.com")] 0)
    (create_email_token [("sub", .str "a@example.com")] 0).claims
    (.str "a@example.com") 0 rfl rfl

/-- C7 counterexample: the email-verification decode path rejects a bad
token (wrong signing key) with HTTP **422**, not with the authorization
denial 401 the claim requires for every validation rejection. -/
theorem c7_counterexample :
    get_email_from_token (jwtEncode [("sub", .str "a@example.com")]
      "not-the-key" ALGORITHM) 0 = .httpError
      { status := 422, detail := "Invalid token for email verification",
        headers := [] } ∧
    (422 : Nat) ≠ 401 := by
  constructor
  · rfl
  · decide

/-- C7 (amended): every `HTTPException` raised by `get_current_user` is
the fixed 401 `credentials_exception`, every one raised by
`get_email_form_refresh_token` is a 401 with one of two fixed detail
strings, and every one raised by `get_email_from_token` is the fixed 422
Invalid token for email verification; no rejection ever carries internal
library error detail, but the email path uses 422 instead of 401. -/
theorem c7_rejection_surface (tok : SignedToken)
    (find : ClaimValue → Option User) (now : Int) :
    (∀ e, get_current_user tok find now = .httpError e →
      e = credentials_exception) ∧
    (∀ e, get_email_form_refresh_token tok now = .httpError e →
      e.status = 401 ∧ (e.detail = "Could not validate credentials" ∨
        e.detail = "Invalid scope for token")) ∧
    (∀ e, get_email_from_token tok now = .httpError e →
      e = { status := 422, detail := "Invalid token for email verification",
            headers := [] }) := by
  refine ⟨fun e he => ?_, fun e he => ?_, fun e he => ?_⟩
  · unfold get_current_user at he
    repeat' split at he
    all_goals first
      | (injection he with h; exact h.symm)
      | injection he
  · unfold get_email_form_refresh_token at he
    repeat' split at he
    all_goals first
      | (injection he with h; rw [← h]; exact ⟨rfl, Or.inl rfl⟩)
      | (injection he with h; rw [← h]; exact ⟨rfl, Or.inr rfl⟩)
      | injection he
  · unfold get_email_from_token at he
    repeat' split at he
    all_goals first
      | (injection he with h; exact h.symm)
      | injection he

theorem c7_witness :
    credentials_exception = credentials_exception ∧
    ({ status := 422, detail := "Invalid token for email verification",
       headers := [] } : HTTPError) =
      { status := 422, detail := "Invalid token for email verification",
        headers := [] } :=
  ⟨(c7_rejection_surface (jwtEncode [] "not-the-key" ALGORITHM)
      (fun _ => Option.none) 0).1 credentials_exception rfl,
   (c7_rejection_surface (jwtEncode [] "not-the-key" ALGORITHM)
      (fun _ => Option.none) 0).2.2 _ rfl⟩

/-- C8: when a structurally valid, correctly scoped access token carries a
subject with no matching user record, `get_current_user` rejects with the
very same `credentials_exception` value (same status 401, same detail,
same headers) it uses for a token failing decode and for a wrongly scoped
token, so the caller cannot distinguish unknown-user from invalid-token. -/
theorem c8_unknown_user_same_denial (tok : SignedToken) (p : Claims)
    (email : ClaimValue) (find : ClaimValue → Option User) (now : Int)
    (hdec : jwtDecode tok SECRET_KEY [ALGORITHM] now = some p)
    (hscope : lookupClaim p "scope" = some (.str "access_token"))
    (hsub : lookupClaim p "sub" = some email)
    (hnn : email ≠ .null)
    (hfind : find email = Option.none) :
    get_current_user tok find now = .httpError credentials_exception ∧
    (∀ bad, jwtDecode bad SECRET_KEY [ALGORITHM] now = Option.none →
      get_current_user bad find now = .httpError credentials_exception) ∧
    (∀ bad q s, jwtDecode bad SECRET_KEY [ALGORITHM] now = some q →
      lookupClaim q "scope" = some s → s ≠ .str "access_token" →
      get_current_user bad find now = .httpError credentials_exception) := by
  refine ⟨?_, fun bad hbad => ?_, fun bad q s hb hq hs => ?_⟩
  · simp only [get_current_user, hdec, hscope, hsub]
    rw [if_pos True.intro, if_neg hnn]
    simp only [hfind]
  · simp [get_current_user, hbad]
  · simp only [get_current_user, hb, hq, if_neg hs]

theorem c8_witness :
    get_current_user (create_access_token [("sub", .str "ghost@example.com")]
      Option.none 0) (fun _ => Option.none) 0 =
      .httpError credentials_exception :=
  (c8_unknown_user_same_denial
    (create_access_token [("sub", .str "ghost@example.com")] Option.none 0)
    (create_access_token [("sub", .str "ghost@example.com")]
      Option.none 0).claims
    (.str "ghost@example.com") (fun _ => Option.none) 0
    rfl rfl rfl (by decide) rfl).1

/-- C9: each issuer works on a copy of the caller-supplied dictionary: in
the heap model, after `create_access_token` / `create_refresh_token` /
`create_email_token` return, the dictionary cell the caller passed holds
exactly its old contents (no `iat` / `exp` / `scope` entry was added or
changed there). -/
theorem c9_issuers_preserve_caller_dict (h : DictHeap) (r : Nat)
    (δ : Option Int) (now : Int) (hr : r < h.length) :
    heapGet (create_access_token_heap h r δ now).2 r = heapGet h r ∧
    heapGet (create_refresh_token_heap h r δ now).2 r = heapGet h r ∧
    heapGet (create_email_token_heap h r now).2 r = heapGet h r := by
  refine ⟨?_, ?_, ?_⟩ <;>
    simp only [create_access_token_heap, create_refresh_token_heap,
      create_email_token_heap, dictCopyAlloc, heapUpdateAt] <;>
    rw [heapGet_set_ne _ _ _ _ (Nat.ne_of_lt hr),
      heapGet_append_lt h r hr]

theorem c9_witness :
    heapGet (create_access_token_heap [[("sub", .str "a@example.com")]] 0
      Option.none 0).2 0 = [("sub", .str "a@example.com")] ∧
    heapGet (create_refresh_token_heap [[("sub", .str "a@example.com")]] 0
      Option.none 0).2 0 = [("sub", .str "a@example.com")] ∧
    heapGet (create_email_token_heap [[("sub", .str "a@example.com")]] 0
      0).2 0 = [("sub", .str "a@example.com")] := by
  exact c9_issuers_preserve_caller_dict [[("sub", .str "a@example.com")]] 0
    Option.none 0 (by decide)

/-- C10: a validly signed, unexpired token whose claims lack a `scope` key
(such as an email-verification token) makes both `get_current_user` and
`get_email_form_refresh_token` end in an uncaught `KeyError` on `scope`,
which is never equal to an `HTTPException` outcome, so neither call
produces the 401 rejection used for other bad tokens. -/
theorem c10_missing_scope_uncaught (tok : SignedToken) (p : Claims)
    (find : ClaimValue → Option User) (now : Int)
    (hdec : jwtDecode tok SECRET_KEY [ALGORITHM] now = some p)
    (hns : lookupClaim p "scope" = Option.none) :
    get_current_user tok find now = .keyError "scope" ∧
    get_email_form_refresh_token tok now = .keyError "scope" ∧
    (∀ e, (Outcome.keyError "scope" : Outcome User) ≠ .httpError e) ∧
    (∀ e, (Outcome.keyError "scope" : Outcome ClaimValue) ≠ .httpError e) := by
  refine ⟨?_, ?_, fun e he => Outcome.noConfusion he,
    fun e he => Outcome.noConfusion he⟩
  · simp [get_current_user, hdec, hns]
  · simp [get_email_form_refresh_token, hdec, hns]

theorem c10_witness :
    get_current_user (create_email_token [("sub", .str "a@example.com")] 0)
      (fun _ => Option.none) 0 = .keyError "scope" ∧
    get_email_form_refresh_token (create_email_token
      [("sub", .str "a@example.com")] 0) 0 = .keyError "scope" := by
  have h := c10_missing_scope_uncaught
    (create_email_token [("sub", .str "a@example.com")] 0)
    (create_email_token [("sub", .str "a@example.com")] 0).claims
    (fun _ => Option.none) 0 rfl rfl
  exact ⟨h.1, h.2.1⟩

end AuthPy
